import Mathlib

/-! RGB indicator driver (`drivers/rgbi/spi_ws2812.c`): flash sequencer

A shallow embedding of the WS2812 RGB-indicator driver.  The driver state
(`struct rgbi_spi_ws2812_data`) is a record; every driver function is a pure
function from a device to a device (and a status).  The two kernel services
the driver talks to are made explicit:

* the LED strip transport: each call of `led_strip_update_rgb` is appended to
  the device trace, and the status it returns is an argument of the calling
  function (every driver function issues at most one transport write);
* the one-shot timer `rgbiTimer`: `some d` when it is armed for duration `d`,
  `none` when it is stopped or has expired; timer starts and stops are traced.
-/

namespace Rgbi

/-! ## Data model -/

/-- The type `rgbi_color_t` of `rgbi.h`: `typedef uint8_t rgbi_color_t`. -/
abbrev rgbi_color_t := Fin 256

/-- The pixel colour `struct led_rgb`: three 8-bit channels, as built by
`CREATE_RGB_PIXELS(_p,_r,_g,_b)`. -/
structure led_rgb where
  r : rgbi_color_t
  g : rgbi_color_t
  b : rgbi_color_t
deriving DecidableEq

/-- Modelled from the spec: the kernel type `k_timeout_t` is not declared in
this repository; the data model calls the durations "non-negative time
intervals", so the tick count is a natural number. -/
structure k_timeout_t where
  ticks : Nat
deriving DecidableEq

/-- The kernel constant `K_NO_WAIT`: a timeout of zero ticks. -/
def K_NO_WAIT : k_timeout_t := ⟨0⟩

/-- The constant `#define FLASH_CONTINUOUS (0)`. -/
def FLASH_CONTINUOUS : Nat := 0

/-- The errno value `EBUSY` of the C library (16). -/
def EBUSY : Int := 16

/-- The errno value `ENODEV` of the C library (19). -/
def ENODEV : Int := 19

/-- Number of values of an `unsigned int` (32 bits): `flashesCompleted++` wraps
modulo this. -/
def UINT_RANGE : Nat := 2 ^ 32

/-- The colour written by `rgbi_setColorFromPixels(dev, 0, 0, 0)`. -/
def black : led_rgb := ⟨0, 0, 0⟩

/-- The fields of `struct rgbi_spi_ws2812_data`.  `rgbiTimer` is the state of
the one-shot kernel timer: `some d` while armed for `d`, else `none`. -/
structure rgbi_spi_ws2812_data where
  pixels : led_rgb
  onDuration : k_timeout_t
  offDuration : k_timeout_t
  flashesRequested : Nat
  flashesCompleted : Nat
  flashStateOn : Bool
  rgbiTimer : Option k_timeout_t
deriving DecidableEq

/-- What the driver does to its collaborators, in program order. -/
inductive Effect where
  | write (px : led_rgb)
  | timerStart (duration : k_timeout_t)
  | timerStop
deriving DecidableEq

/-- One indicator instance: its data and the trace of effects so far (oldest
first). -/
structure Device where
  data : rgbi_spi_ws2812_data
  trace : List Effect
deriving DecidableEq

/-- The colours written to the transport, oldest first. -/
def writes : List Effect → List led_rgb
  | [] => []
  | Effect.write px :: es => px :: writes es
  | _ :: es => writes es

/-! ## Kernel services -/

/-- The transport call `led_strip_update_rgb(led_strip, pixels, 1)`: the write
is recorded and the transport answers with `ret`. -/
def led_strip_update_rgb (ret : Int) (dev : Device) (px : led_rgb) : Device × Int :=
  ({ dev with trace := dev.trace ++ [Effect.write px] }, ret)

/-- The kernel call `k_timer_start(&data->rgbiTimer, duration, K_NO_WAIT)`:
(re)arms the one-shot timer. -/
def k_timer_start (dev : Device) (duration : k_timeout_t) : Device :=
  { data := { dev.data with rgbiTimer := some duration },
    trace := dev.trace ++ [Effect.timerStart duration] }

/-- The kernel call `k_timer_stop(&data->rgbiTimer)`. -/
def k_timer_stop (dev : Device) : Device :=
  { data := { dev.data with rgbiTimer := none },
    trace := dev.trace ++ [Effect.timerStop] }

/-! ## Driver functions -/

/-- The macro `IS_FLASHING(dev)`: `dev_data(dev)->onDuration.ticks > 0`. -/
def IS_FLASHING (dev : Device) : Bool :=
  decide (dev.data.onDuration.ticks > 0)

/-- Source function `rgbi_spi_ws2812_setColor`. -/
def rgbi_spi_ws2812_setColor (ret : Int) (dev : Device) (pixels : led_rgb) : Device × Int :=
  led_strip_update_rgb ret dev pixels

/-- Source function `rgbi_spi_ws2812_setColorFromPixels`. -/
def rgbi_spi_ws2812_setColorFromPixels (ret : Int) (dev : Device)
    (red green blue : rgbi_color_t) : Device × Int :=
  rgbi_spi_ws2812_setColor ret dev ⟨red, green, blue⟩

/-- Source function `rgbi_spi_ws2812_off`. -/
def rgbi_spi_ws2812_off (ret : Int) (dev : Device) : Device × Int :=
  if IS_FLASHING dev then
    (dev, -EBUSY)
  else
    rgbi_spi_ws2812_setColorFromPixels ret dev 0 0 0

/-- Source function `rgbi_spi_ws2812_flash`; `count` is a `uint8_t`.  The status
of the first write is dropped, as in the source. -/
def rgbi_spi_ws2812_flash (ret : Int) (dev : Device) (pixels : led_rgb)
    (onDuration offDuration : k_timeout_t) (count : Fin 256) : Device × Int :=
  if IS_FLASHING dev then
    (dev, -EBUSY)
  else
    let dev1 : Device :=
      { dev with data := { dev.data with
          onDuration := onDuration
          offDuration := offDuration
          flashesRequested := count.val
          flashesCompleted := 0
          pixels := pixels } }
    let dev2 := (rgbi_spi_ws2812_setColor ret dev1 pixels).1
    let dev3 := k_timer_start dev2 dev2.data.onDuration
    let dev4 : Device := { dev3 with data := { dev3.data with flashStateOn := true } }
    (dev4, 0)

/-- Source function `rgbi_spi_ws2812_flashContinuous`. -/
def rgbi_spi_ws2812_flashContinuous (ret : Int) (dev : Device) (pixels : led_rgb)
    (onDuration offDuration : k_timeout_t) : Device × Int :=
  let dev1 := (rgbi_spi_ws2812_flash ret dev pixels onDuration offDuration
    ⟨FLASH_CONTINUOUS, by decide⟩).1
  (dev1, 0)

/-- Source function `rgbi_spi_ws2812_cancel`. -/
def rgbi_spi_ws2812_cancel (ret : Int) (dev : Device) : Device × Int :=
  let dev1 := k_timer_stop dev
  let dev2 : Device := { dev1 with data := { dev1.data with onDuration := K_NO_WAIT } }
  let dev3 := (rgbi_spi_ws2812_off ret dev2).1
  (dev3, 0)

/-- Source function `rgbi_spi_ws2812_isBusy`; the device is handed back so
that the absence of side effects can be stated. -/
def rgbi_spi_ws2812_isBusy (dev : Device) : Device × Bool :=
  (dev, IS_FLASHING dev)

/-- Source function `rgbi_spi_ws2812_flashWorkHandler`: the transition run for
one timer expiry. -/
def rgbi_spi_ws2812_flashWorkHandler (ret : Int) (dev : Device) : Device :=
  if dev.data.onDuration.ticks > 0 then
    if dev.data.flashStateOn then
      let dev1 := (rgbi_spi_ws2812_setColorFromPixels ret dev 0 0 0).1
      let dev2 : Device :=
        { dev1 with data := { dev1.data with
            flashStateOn := false
            flashesCompleted := (dev1.data.flashesCompleted + 1) % UINT_RANGE } }
      if dev2.data.flashesCompleted < dev2.data.flashesRequested
          ∨ dev2.data.flashesRequested = FLASH_CONTINUOUS then
        k_timer_start dev2 dev2.data.offDuration
      else
        { dev2 with data := { dev2.data with
            flashesRequested := 0
            flashesCompleted := 0
            onDuration := K_NO_WAIT } }
    else
      let dev1 : Device := { dev with data := { dev.data with flashStateOn := true } }
      if dev1.data.flashesCompleted < dev1.data.flashesRequested then
        let dev2 := (rgbi_spi_ws2812_setColor ret dev1 dev1.data.pixels).1
        k_timer_start dev2 dev2.data.onDuration
      else
        dev1
  else
    dev

/-- Source function `rgbi_spi_ws2812_init`: `ready` is the answer of
`device_is_ready(led_strip)`; `k_timer_init` leaves the timer stopped. -/
def rgbi_spi_ws2812_init (ready : Bool) (dev : Device) : Device × Int :=
  let dev1 : Device :=
    { dev with data := { dev.data with
        pixels := ⟨0, 0, 0⟩
        onDuration := ⟨0⟩
        offDuration := ⟨0⟩
        flashesRequested := 0
        flashesCompleted := 0
        flashStateOn := false } }
  if !ready then
    (dev1, -ENODEV)
  else
    ({ dev1 with data := { dev1.data with rgbiTimer := none } }, 0)

/-- The statically allocated, zero-filled instance before `init` runs. -/
def bootDevice : Device :=
  { data :=
      { pixels := ⟨0, 0, 0⟩
        onDuration := ⟨0⟩
        offDuration := ⟨0⟩
        flashesRequested := 0
        flashesCompleted := 0
        flashStateOn := false
        rgbiTimer := none }
    trace := [] }

/-- The indicator as brought into service: `init` with a ready transport. -/
def initialDevice : Device := (rgbi_spi_ws2812_init true bootDevice).1

/-! ## Timer expiry and runs -/

/-- One timer expiry: if the timer is armed it fires (a one-shot timer is
stopped afterwards), `rgbi_spi_ws2812_on_timer_expire` submits the work item
and the work queue runs `rgbi_spi_ws2812_flashWorkHandler`.  With no timer
armed nothing happens. -/
def timerExpiry (ret : Int) (dev : Device) : Device :=
  match dev.data.rgbiTimer with
  | none => dev
  | some _ =>
    rgbi_spi_ws2812_flashWorkHandler ret
      { dev with data := { dev.data with rgbiTimer := none } }

/-- The device after `k` consecutive timer expiries, the transport answering
the write of expiry number `i + 1` with `rets i`. -/
def runExpiries (rets : Nat → Int) : Nat → Device → Device
  | 0, dev => dev
  | k + 1, dev => timerExpiry (rets k) (runExpiries rets k dev)

/-- Whether the timer is armed. -/
def timerArmed (dev : Device) : Bool := dev.data.rgbiTimer.isSome

/-- The alternation `c, black, c, black, ...` of length `n`. -/
def alternation (c : led_rgb) (n : Nat) : List led_rgb :=
  (List.range n).map (fun i => if i % 2 = 0 then c else black)

/-- One step of use of the indicator: an API call with the status its
transport write (if any) receives, a handled timer expiry, or a run of the
work handler at an arbitrary moment. -/
inductive Op where
  | setColor (ret : Int) (pixels : led_rgb)
  | setColorFromPixels (ret : Int) (red green blue : rgbi_color_t)
  | off (ret : Int)
  | flash (ret : Int) (pixels : led_rgb) (onDuration offDuration : k_timeout_t)
      (count : Fin 256)
  | flashContinuous (ret : Int) (pixels : led_rgb) (onDuration offDuration : k_timeout_t)
  | cancel (ret : Int)
  | isBusy
  | expiry (ret : Int)
  | workHandler (ret : Int)

/-- The device after one step. -/
def step (dev : Device) : Op → Device
  | Op.setColor ret px => (rgbi_spi_ws2812_setColor ret dev px).1
  | Op.setColorFromPixels ret r g b => (rgbi_spi_ws2812_setColorFromPixels ret dev r g b).1
  | Op.off ret => (rgbi_spi_ws2812_off ret dev).1
  | Op.flash ret px onD offD count => (rgbi_spi_ws2812_flash ret dev px onD offD count).1
  | Op.flashContinuous ret px onD offD => (rgbi_spi_ws2812_flashContinuous ret dev px onD offD).1
  | Op.cancel ret => (rgbi_spi_ws2812_cancel ret dev).1
  | Op.isBusy => (rgbi_spi_ws2812_isBusy dev).1
  | Op.expiry ret => timerExpiry ret dev
  | Op.workHandler ret => rgbi_spi_ws2812_flashWorkHandler ret dev

/-- The device reached from the initial one by a sequence of steps. -/
def run (ops : List Op) : Device := ops.foldl step initialDevice

/-- Sample colour: full red. -/
def red : led_rgb := ⟨255, 0, 0⟩

/-- Sample colour: full blue. -/
def blue : led_rgb := ⟨0, 0, 255⟩

/-- Sample busy device: the initial one after `flash(red, 100, 50, 3)`. -/
def litDevice : Device := run [Op.flash 0 red ⟨100⟩ ⟨50⟩ 3]

/-- The effects of a running bounded sequence up to and including handled
expiry number `k`: the first write and timer start of `flash`, then per expiry
one write (black after a lit interval, the colour after a dark one) and the
timer start for the next interval. -/
def sequenceTrace (c : led_rgb) (onD offD : k_timeout_t) : Nat → List Effect
  | 0 => [Effect.write c, Effect.timerStart onD]
  | k + 1 => sequenceTrace c onD offD k ++
      (if k % 2 = 0 then [Effect.write black, Effect.timerStart offD]
        else [Effect.write c, Effect.timerStart onD])

/-- The device expected after `flash(c, onD, offD, n)` on `dev` and `k` handled
expiries, while the sequence is still running: lit after an even number of
expiries, dark after an odd number, `(k + 1) / 2` pulses completed. -/
def sequenceState (dev : Device) (c : led_rgb) (onD offD : k_timeout_t) (n k : Nat) : Device :=
  { data :=
      { pixels := c
        onDuration := onD
        offDuration := offD
        flashesRequested := n
        flashesCompleted := (k + 1) / 2
        flashStateOn := decide (k % 2 = 0)
        rgbiTimer := some (if k % 2 = 0 then onD else offD) }
    trace := dev.trace ++ sequenceTrace c onD offD k }

/-! ## Timed runs -/

/-- A device on a time line.  `now` is the current time, `armedAt` the time of
the last timer start, and `stamped` lists every transport write with the time
at which it was issued.  Times and durations share one unit (milliseconds in
the scenarios below). -/
structure Clocked where
  now : Nat
  armedAt : Nat
  dev : Device
  stamped : List (Nat × led_rgb)
deriving DecidableEq

/-- Whether an effect is a timer start. -/
def startsTimer : Effect → Bool
  | Effect.timerStart _ => true
  | _ => false

/-- The device of `c` has become `dev` at time `t`: the writes that `dev` has
in addition are stamped with `t`, and `t` is remembered as the arming time if
the timer was started. -/
def record (t : Nat) (c : Clocked) (dev : Device) : Clocked :=
  { now := t
    armedAt :=
      if (dev.trace.drop c.dev.trace.length).any startsTimer then t else c.armedAt
    dev := dev
    stamped :=
      c.stamped ++ (writes (dev.trace.drop c.dev.trace.length)).map (fun px => (t, px)) }

/-- The time line begins at time 0 with the given device. -/
def clockStart (dev : Device) : Clocked :=
  { now := 0, armedAt := 0, dev := dev, stamped := [] }

/-- The time at which the armed timer is due, if a timer is armed. -/
def nextExpiry (c : Clocked) : Option Nat :=
  c.dev.data.rgbiTimer.map (fun d => c.armedAt + d.ticks)

/-- An API call `f` made at time `t`. -/
def callAt (t : Nat) (f : Device → Device) (c : Clocked) : Clocked :=
  record t c (f c.dev)

/-- The armed timer expires at its due time and the expiry is handled; nothing
happens when no timer is armed. -/
def expireDue (ret : Int) (c : Clocked) : Clocked :=
  match nextExpiry c with
  | none => c
  | some t => record t c (timerExpiry ret c.dev)

/-- The time line after `k` consecutive due expiries, the transport answering
the write of expiry number `i + 1` with `rets i`. -/
def expireDueRun (rets : Nat → Int) : Nat → Clocked → Clocked
  | 0, c => c
  | k + 1, c => expireDue (rets k) (expireDueRun rets k c)

/-- Scenario: `flash(red, 100, 50, 3)` at time 0 on the initial device. -/
def flashRedScenario (ret : Int) : Clocked :=
  callAt 0 (fun d => (rgbi_spi_ws2812_flash ret d red ⟨100⟩ ⟨50⟩ 3).1) (clockStart initialDevice)

/-- Scenario: `flashContinuous(blue, 200, 200)` at time 0 on the initial device
and the first due expiry handled. -/
def flashBlueScenario (ret0 ret1 : Int) : Clocked :=
  expireDue ret1
    (callAt 0 (fun d => (rgbi_spi_ws2812_flashContinuous ret0 d blue ⟨200⟩ ⟨200⟩).1)
      (clockStart initialDevice))

/-- Scenario: `flashBlueScenario` followed by `cancel` at time 350. -/
def cancelBlueScenario (ret0 ret1 ret2 : Int) : Clocked :=
  callAt 350 (fun d => (rgbi_spi_ws2812_cancel ret2 d).1) (flashBlueScenario ret0 ret1)

/-- Sample idle device with stale fields: `flash(red, 100, 50, 3)` then
`cancel` on the initial device. -/
def cancelledDevice : Device := run [Op.flash 0 red ⟨100⟩ ⟨50⟩ 3, Op.cancel 0]

/-- Sample dark-pending device of a continuous sequence: the initial device
after `flashContinuous(blue, 200, 200)` and one handled expiry. -/
def darkContinuousDevice : Device :=
  run [Op.flashContinuous 0 blue ⟨200⟩ ⟨200⟩, Op.expiry 0]

/-! ## General lemmas -/

theorem writes_append (xs ys : List Effect) : writes (xs ++ ys) = writes xs ++ writes ys := by
  induction xs with
  | nil => rfl
  | cons e es ih => cases e <;> simp [writes, ih]

theorem run_induction (P : Device → Prop) (h0 : P initialDevice)
    (hstep : ∀ dev op, P dev → P (step dev op)) (ops : List Op) : P (run ops) := by
  have key : ∀ (l : List Op) (d : Device), P d → P (l.foldl step d) := by
    intro l
    induction l with
    | nil => intro d hd; exact hd
    | cons o os ih => intro d hd; exact ih (step d o) (hstep d o hd)
  exact key ops initialDevice h0

/-! ## The closed form of a running bounded sequence -/

theorem writes_sequenceTrace (c : led_rgb) (onD offD : k_timeout_t) (k : Nat) :
    writes (sequenceTrace c onD offD k) = alternation c (k + 1) := by
  induction k with
  | zero => simp [sequenceTrace, writes, alternation, List.range_succ]
  | succ k ih =>
    rw [sequenceTrace, writes_append, ih]
    rw [alternation, alternation, List.range_succ (k + 1), List.map_append]
    rcases Nat.mod_two_eq_zero_or_one k with h | h
    · have h1 : (k + 1) % 2 = 1 := by omega
      simp [h, h1, writes]
    · have h1 : (k + 1) % 2 = 0 := by omega
      simp [h, h1, writes]

theorem timerExpiry_sequenceState (ret : Int) (dev : Device) (c : led_rgb)
    (onD offD : k_timeout_t) (hon : 0 < onD.ticks) (n k : Nat) (hn : n < UINT_RANGE)
    (hk : k + 3 ≤ 2 * n) :
    timerExpiry ret (sequenceState dev c onD offD n k) = sequenceState dev c onD offD n (k + 1) := by
  rcases Nat.mod_two_eq_zero_or_one k with h | h
  · have h1 : (k + 1) % 2 = 1 := by omega
    have h2 : ((k + 1) / 2 + 1) % UINT_RANGE = (k + 1 + 1) / 2 := by
      rw [Nat.mod_eq_of_lt (by omega)]; omega
    have h3 : (k + 1 + 1) / 2 < n := by omega
    simp [timerExpiry, sequenceState, rgbi_spi_ws2812_flashWorkHandler, hon, h, h1, h2, h3,
      rgbi_spi_ws2812_setColorFromPixels, rgbi_spi_ws2812_setColor, led_strip_update_rgb,
      k_timer_start, sequenceTrace, black]
  · have h1 : (k + 1) % 2 = 0 := by omega
    have h2 : (k + 1 + 1) / 2 = (k + 1) / 2 := by omega
    have h3 : (k + 1) / 2 < n := by omega
    simp [timerExpiry, sequenceState, rgbi_spi_ws2812_flashWorkHandler, hon, h, h1, h2, h3,
      rgbi_spi_ws2812_setColor, led_strip_update_rgb,
      k_timer_start, sequenceTrace]

theorem flash_idle_sequenceState (ret : Int) (dev : Device)
    (hidle : (rgbi_spi_ws2812_isBusy dev).2 = false) (c : led_rgb) (onD offD : k_timeout_t)
    (count : Fin 256) :
    (rgbi_spi_ws2812_flash ret dev c onD offD count).1 = sequenceState dev c onD offD count.val 0 := by
  have h : IS_FLASHING dev = false := hidle
  simp [rgbi_spi_ws2812_flash, h, rgbi_spi_ws2812_setColor, led_strip_update_rgb, k_timer_start,
    sequenceState, sequenceTrace]

theorem runExpiries_sequenceState (rets : Nat → Int) (dev : Device) (c : led_rgb)
    (onD offD : k_timeout_t) (hon : 0 < onD.ticks) (n : Nat) (hn : n < UINT_RANGE) (k : Nat)
    (hk : k + 2 ≤ 2 * n) :
    runExpiries rets k (sequenceState dev c onD offD n 0) = sequenceState dev c onD offD n k := by
  induction k with
  | zero => rfl
  | succ k ih =>
    rw [runExpiries, ih (by omega)]
    exact timerExpiry_sequenceState (rets k) dev c onD offD hon n k hn (by omega)

theorem timerExpiry_last_pulse (ret : Int) (dev : Device) (c : led_rgb)
    (onD offD : k_timeout_t) (hon : 0 < onD.ticks) (n : Nat) (hn : n < UINT_RANGE)
    (hpos : 1 ≤ n) :
    timerExpiry ret (sequenceState dev c onD offD n (2 * n - 2))
      = { data :=
            { pixels := c
              onDuration := K_NO_WAIT
              offDuration := offD
              flashesRequested := 0
              flashesCompleted := 0
              flashStateOn := false
              rgbiTimer := none }
          trace := dev.trace ++ sequenceTrace c onD offD (2 * n - 2) ++ [Effect.write black] } := by
  have h : (2 * n - 2) % 2 = 0 := by omega
  have h2 : ((2 * n - 2 + 1) / 2 + 1) % UINT_RANGE = n := by
    rw [Nat.mod_eq_of_lt (by omega)]; omega
  have h3 : n ≠ 0 := by omega
  simp [timerExpiry, sequenceState, rgbi_spi_ws2812_flashWorkHandler, hon, h, h2, h3,
    rgbi_spi_ws2812_setColorFromPixels, rgbi_spi_ws2812_setColor, led_strip_update_rgb,
    FLASH_CONTINUOUS, black]

theorem runExpiries_add (rets : Nat → Int) (dev : Device) (m j : Nat)
    (hstop : (runExpiries rets m dev).data.rgbiTimer = none) :
    runExpiries rets (m + j) dev = runExpiries rets m dev := by
  induction j with
  | zero => rfl
  | succ j ih =>
    rw [← Nat.add_assoc, runExpiries, ih]
    simp [timerExpiry, hstop]

/-! ## Bounded sequences (C1) -/

/-- C1: on every idle device, for every colour `c`, on-duration `onD > 0`,
off-duration `offD` and count `N` with `1 ≤ N ≤ 255`, and whatever the
transport answers: after `flash(c, onD, offD, N)` and `k ≤ 2N - 2` handled timer
expiries `isBusy` is true, the timer is armed, and the writes so far are the
alternation `c, black, c, ...` of length `k + 1`; after expiry number `2N - 1`
`isBusy` is false, no timer is armed and the writes of the sequence are the
alternation `c, black, ..., c, black` of length `2N`; nothing changes
afterwards, as no expiry can follow. -/
theorem bounded_flash_sequence (ret0 : Int) (rets : Nat → Int) (dev : Device)
    (hidle : (rgbi_spi_ws2812_isBusy dev).2 = false) (c : led_rgb) (onD offD : k_timeout_t)
    (hon : 0 < onD.ticks) (count : Fin 256) (hcount : 1 ≤ count.val) :
    (∀ k, k ≤ 2 * count.val - 2 →
        (rgbi_spi_ws2812_isBusy
            (runExpiries rets k (rgbi_spi_ws2812_flash ret0 dev c onD offD count).1)).2 = true
          ∧ timerArmed
              (runExpiries rets k (rgbi_spi_ws2812_flash ret0 dev c onD offD count).1) = true
          ∧ writes (runExpiries rets k (rgbi_spi_ws2812_flash ret0 dev c onD offD count).1).trace
              = writes dev.trace ++ alternation c (k + 1))
      ∧ (rgbi_spi_ws2812_isBusy
            (runExpiries rets (2 * count.val - 1)
              (rgbi_spi_ws2812_flash ret0 dev c onD offD count).1)).2 = false
      ∧ timerArmed
            (runExpiries rets (2 * count.val - 1)
              (rgbi_spi_ws2812_flash ret0 dev c onD offD count).1) = false
      ∧ writes (runExpiries rets (2 * count.val - 1)
            (rgbi_spi_ws2812_flash ret0 dev c onD offD count).1).trace
          = writes dev.trace ++ alternation c (2 * count.val)
      ∧ ∀ j, runExpiries rets (2 * count.val - 1 + j)
            (rgbi_spi_ws2812_flash ret0 dev c onD offD count).1
          = runExpiries rets (2 * count.val - 1)
            (rgbi_spi_ws2812_flash ret0 dev c onD offD count).1 := by
  have hn : count.val < UINT_RANGE := by
    have := count.isLt
    have hU : UINT_RANGE = 4294967296 := by decide
    omega
  rw [flash_idle_sequenceState ret0 dev hidle c onD offD count]
  have hend : runExpiries rets (2 * count.val - 1) (sequenceState dev c onD offD count.val 0)
      = { data :=
            { pixels := c
              onDuration := K_NO_WAIT
              offDuration := offD
              flashesRequested := 0
              flashesCompleted := 0
              flashStateOn := false
              rgbiTimer := none }
          trace := dev.trace ++ sequenceTrace c onD offD (2 * count.val - 2)
            ++ [Effect.write black] } := by
    have e : 2 * count.val - 1 = (2 * count.val - 2) + 1 := by omega
    rw [e, runExpiries, runExpiries_sequenceState rets dev c onD offD hon count.val hn _ (by omega)]
    exact timerExpiry_last_pulse _ dev c onD offD hon count.val hn hcount
  refine ⟨?_, ?_, ?_, ?_, ?_⟩
  · intro k hk
    rw [runExpiries_sequenceState rets dev c onD offD hon count.val hn k (by omega)]
    refine ⟨?_, ?_, ?_⟩
    · simp [rgbi_spi_ws2812_isBusy, IS_FLASHING, sequenceState, hon]
    · simp [timerArmed, sequenceState]
    · simp [sequenceState, writes_append, writes_sequenceTrace]
  · rw [hend]; simp [rgbi_spi_ws2812_isBusy, IS_FLASHING, K_NO_WAIT]
  · rw [hend]; simp [timerArmed]
  · rw [hend]
    simp only [writes_append, writes_sequenceTrace]
    have e : 2 * count.val = (2 * count.val - 2 + 1) + 1 := by omega
    have hodd : (2 * count.val - 2 + 1) % 2 = 1 := by omega
    rw [List.append_assoc]
    congr 1
    conv_rhs => rw [e, alternation, List.range_succ, List.map_append]
    simp [alternation, writes, hodd]
  · intro j
    exact runExpiries_add rets _ _ j (by rw [hend])

theorem bounded_flash_sequence_witness :
    (rgbi_spi_ws2812_isBusy initialDevice).2 = false
      ∧ 0 < (⟨100⟩ : k_timeout_t).ticks
      ∧ 1 ≤ (3 : Fin 256).val
      ∧ (rgbi_spi_ws2812_isBusy
            (runExpiries (fun _ => 0) (2 * (3 : Fin 256).val - 1)
              (rgbi_spi_ws2812_flash 0 initialDevice red ⟨100⟩ ⟨50⟩ 3).1)).2 = false
      ∧ writes (runExpiries (fun _ => 0) (2 * (3 : Fin 256).val - 1)
            (rgbi_spi_ws2812_flash 0 initialDevice red ⟨100⟩ ⟨50⟩ 3).1).trace
          = writes initialDevice.trace ++ alternation red (2 * (3 : Fin 256).val) :=
  ⟨by decide, by decide, by decide,
    (bounded_flash_sequence 0 (fun _ => 0) initialDevice (by decide) red ⟨100⟩ ⟨50⟩
      (by decide) 3 (by decide)).2.1,
    (bounded_flash_sequence 0 (fun _ => 0) initialDevice (by decide) red ⟨100⟩ ⟨50⟩
      (by decide) 3 (by decide)).2.2.2.1⟩

/-! ## Continuous sequences (C2) -/

/-- C2, evaluated on the initial device: after `flashContinuous(blue, 200, 200)`
and two handled timer expiries `isBusy` is still true but no timer is armed and
the writes are only `blue, black` (not the 3-long alternation
`blue, black, blue`); a third expiry cannot happen, so the sequence has
stalled without any cancel. -/
theorem continuous_flash_stalls :
    (rgbi_spi_ws2812_isBusy
        (runExpiries (fun _ => 0) 2
          (rgbi_spi_ws2812_flashContinuous 0 initialDevice blue ⟨200⟩ ⟨200⟩).1)).2 = true
      ∧ timerArmed
          (runExpiries (fun _ => 0) 2
            (rgbi_spi_ws2812_flashContinuous 0 initialDevice blue ⟨200⟩ ⟨200⟩).1) = false
      ∧ writes (runExpiries (fun _ => 0) 2
            (rgbi_spi_ws2812_flashContinuous 0 initialDevice blue ⟨200⟩ ⟨200⟩).1).trace
          = [blue, black]
      ∧ alternation blue 3 = [blue, black, blue]
      ∧ runExpiries (fun _ => 0) 3
            (rgbi_spi_ws2812_flashContinuous 0 initialDevice blue ⟨200⟩ ⟨200⟩).1
          = runExpiries (fun _ => 0) 2
            (rgbi_spi_ws2812_flashContinuous 0 initialDevice blue ⟨200⟩ ⟨200⟩).1 := by
  decide

/-! ## Busy rejection (C3) -/

/-- C3: in every state in which `isBusy` is true, `flash` (for every argument
tuple) and `off` return `-EBUSY` and hand back the very same device: stored
colour, durations, counts, `flashStateOn` and the timer are unchanged and the
trace gains no transport write and no timer operation. -/
theorem busy_rejects_flash_and_off (dev : Device)
    (hbusy : (rgbi_spi_ws2812_isBusy dev).2 = true)
    (ret : Int) (pixels : led_rgb) (onD offD : k_timeout_t) (count : Fin 256) :
    rgbi_spi_ws2812_flash ret dev pixels onD offD count = (dev, -EBUSY)
      ∧ rgbi_spi_ws2812_off ret dev = (dev, -EBUSY) := by
  have h : IS_FLASHING dev = true := hbusy
  simp [rgbi_spi_ws2812_flash, rgbi_spi_ws2812_off, h]

theorem busy_rejects_flash_and_off_witness :
    (rgbi_spi_ws2812_isBusy litDevice).2 = true
      ∧ rgbi_spi_ws2812_flash 0 litDevice blue ⟨7⟩ ⟨9⟩ 2 = (litDevice, -EBUSY)
      ∧ rgbi_spi_ws2812_off 0 litDevice = (litDevice, -EBUSY) :=
  ⟨by decide, busy_rejects_flash_and_off litDevice (by decide) 0 blue ⟨7⟩ ⟨9⟩ 2⟩

/-! ## Cancel (C4) -/

/-- C4: in every state and for every transport status `ret`, `cancel` returns
0, leaves the timer stopped and `onDuration` at the idle sentinel, so that
`isBusy` is false; its effects are one timer stop followed by exactly one
transport write, of black, which is the last write. -/
theorem cancel_always_idles (ret : Int) (dev : Device) :
    (rgbi_spi_ws2812_cancel ret dev).2 = 0
      ∧ (rgbi_spi_ws2812_cancel ret dev).1.data.rgbiTimer = none
      ∧ (rgbi_spi_ws2812_cancel ret dev).1.data.onDuration = K_NO_WAIT
      ∧ (rgbi_spi_ws2812_isBusy (rgbi_spi_ws2812_cancel ret dev).1).2 = false
      ∧ (rgbi_spi_ws2812_cancel ret dev).1.trace
          = dev.trace ++ [Effect.timerStop, Effect.write black]
      ∧ writes (rgbi_spi_ws2812_cancel ret dev).1.trace = writes dev.trace ++ [black]
      ∧ (writes (rgbi_spi_ws2812_cancel ret dev).1.trace).getLast? = some black := by
  have htrace : (rgbi_spi_ws2812_cancel ret dev).1.trace
      = dev.trace ++ [Effect.timerStop, Effect.write black] := by
    simp [rgbi_spi_ws2812_cancel, rgbi_spi_ws2812_off, IS_FLASHING, K_NO_WAIT, k_timer_stop,
      rgbi_spi_ws2812_setColorFromPixels, rgbi_spi_ws2812_setColor, led_strip_update_rgb, black]
  refine ⟨rfl, ?_, ?_, ?_, htrace, ?_, ?_⟩
  · simp [rgbi_spi_ws2812_cancel, rgbi_spi_ws2812_off, IS_FLASHING, K_NO_WAIT, k_timer_stop,
      rgbi_spi_ws2812_setColorFromPixels, rgbi_spi_ws2812_setColor, led_strip_update_rgb]
  · simp [rgbi_spi_ws2812_cancel, rgbi_spi_ws2812_off, IS_FLASHING, K_NO_WAIT, k_timer_stop,
      rgbi_spi_ws2812_setColorFromPixels, rgbi_spi_ws2812_setColor, led_strip_update_rgb]
  · simp [rgbi_spi_ws2812_isBusy, rgbi_spi_ws2812_cancel, rgbi_spi_ws2812_off, IS_FLASHING,
      K_NO_WAIT, k_timer_stop, rgbi_spi_ws2812_setColorFromPixels, rgbi_spi_ws2812_setColor,
      led_strip_update_rgb]
  · rw [htrace, writes_append]; simp [writes]
  · rw [htrace, writes_append]; simp [writes]

/-! ## Starting a sequence (C5) -/

/-- C5: on every idle device and for every argument tuple, `flash` returns 0;
afterwards `onDuration` and `offDuration` are the arguments, `flashesRequested`
is `count`, `flashesCompleted` is 0, the stored colour is `pixels`,
`flashStateOn` is true and the timer is armed for `onDuration`; the effects are
exactly one transport write of `pixels` followed by that timer start. -/
theorem flash_starts_sequence (ret : Int) (dev : Device)
    (hidle : (rgbi_spi_ws2812_isBusy dev).2 = false)
    (pixels : led_rgb) (onD offD : k_timeout_t) (count : Fin 256) :
    (rgbi_spi_ws2812_flash ret dev pixels onD offD count).2 = 0
      ∧ (rgbi_spi_ws2812_flash ret dev pixels onD offD count).1
          = { data :=
                { pixels := pixels
                  onDuration := onD
                  offDuration := offD
                  flashesRequested := count.val
                  flashesCompleted := 0
                  flashStateOn := true
                  rgbiTimer := some onD }
              trace := dev.trace ++ [Effect.write pixels, Effect.timerStart onD] } := by
  have h : IS_FLASHING dev = false := hidle
  simp [rgbi_spi_ws2812_flash, h, rgbi_spi_ws2812_setColor, led_strip_update_rgb, k_timer_start]

theorem flash_starts_sequence_witness :
    (rgbi_spi_ws2812_isBusy initialDevice).2 = false
      ∧ (rgbi_spi_ws2812_flash 0 initialDevice red ⟨100⟩ ⟨50⟩ 3).2 = 0
      ∧ (rgbi_spi_ws2812_flash 0 initialDevice red ⟨100⟩ ⟨50⟩ 3).1
          = { data :=
                { pixels := red
                  onDuration := ⟨100⟩
                  offDuration := ⟨50⟩
                  flashesRequested := (3 : Fin 256).val
                  flashesCompleted := 0
                  flashStateOn := true
                  rgbiTimer := some ⟨100⟩ }
              trace := initialDevice.trace ++ [Effect.write red, Effect.timerStart ⟨100⟩] } :=
  ⟨by decide, flash_starts_sequence 0 initialDevice (by decide) red ⟨100⟩ ⟨50⟩ 3⟩

/-! ## flashContinuous against flash (C6) -/

/-- C6, evaluated on a busy device: `flashContinuous(blue, 200, 200)` leaves
the same device as `flash(blue, 200, 200, 0)` (both change nothing), but it
returns 0 where `flash` returns `-EBUSY`: the busy status of the wrapped call
is dropped. -/
theorem flashContinuous_drops_busy_status :
    (rgbi_spi_ws2812_isBusy litDevice).2 = true
      ∧ (rgbi_spi_ws2812_flash 0 litDevice blue ⟨200⟩ ⟨200⟩ 0).2 = -EBUSY
      ∧ (rgbi_spi_ws2812_flashContinuous 0 litDevice blue ⟨200⟩ ⟨200⟩).2 = 0
      ∧ (rgbi_spi_ws2812_flashContinuous 0 litDevice blue ⟨200⟩ ⟨200⟩).1
          = (rgbi_spi_ws2812_flash 0 litDevice blue ⟨200⟩ ⟨200⟩ 0).1 := by
  decide

/-! ## The busy query (C7) -/

/-- C7: `isBusy` hands back the device it was given (no field, trace entry or
timer changes), and in every state reached from the initial one by any
sequence of API calls, timer expiries and work-handler runs it answers true
exactly when the stored `onDuration` is not 0. -/
theorem isBusy_pure_and_exact :
    (∀ dev : Device, (rgbi_spi_ws2812_isBusy dev).1 = dev)
      ∧ ∀ ops : List Op,
          ((rgbi_spi_ws2812_isBusy (run ops)).2 = true
            ↔ (run ops).data.onDuration.ticks ≠ 0) := by
  refine ⟨fun _ => rfl, fun ops => ?_⟩
  simp [rgbi_spi_ws2812_isBusy, IS_FLASHING, Nat.pos_iff_ne_zero]

/-! ## Idle values after cancel (C8) -/

/-- C8, evaluated after `flash(red, 100, 50, 3)` then `cancel`: the device is
idle (`onDuration` is 0, `isBusy` false) but `flashesRequested` is still 3 and
`flashStateOn` is still true. -/
theorem cancel_keeps_stale_counts :
    (run [Op.flash 0 red ⟨100⟩ ⟨50⟩ 3, Op.cancel 0]).data.onDuration.ticks = 0
      ∧ (rgbi_spi_ws2812_isBusy (run [Op.flash 0 red ⟨100⟩ ⟨50⟩ 3, Op.cancel 0])).2 = false
      ∧ (run [Op.flash 0 red ⟨100⟩ ⟨50⟩ 3, Op.cancel 0]).data.flashesRequested = 3
      ∧ (run [Op.flash 0 red ⟨100⟩ ⟨50⟩ 3, Op.cancel 0]).data.flashStateOn = true := by
  decide

/-! ## Completed never exceeds requested (C9) -/

theorem step_keeps_count_bound (dev : Device) (op : Op)
    (h : 0 < dev.data.flashesRequested →
      dev.data.flashesCompleted ≤ dev.data.flashesRequested) :
    0 < (step dev op).data.flashesRequested →
      (step dev op).data.flashesCompleted ≤ (step dev op).data.flashesRequested := by
  cases op <;>
    simp only [step, rgbi_spi_ws2812_setColor, rgbi_spi_ws2812_setColorFromPixels,
      rgbi_spi_ws2812_off, rgbi_spi_ws2812_flash, rgbi_spi_ws2812_flashContinuous,
      rgbi_spi_ws2812_cancel, rgbi_spi_ws2812_isBusy, rgbi_spi_ws2812_flashWorkHandler,
      timerExpiry, led_strip_update_rgb, k_timer_start, k_timer_stop, FLASH_CONTINUOUS]
  all_goals first
    | exact h
    | (split_ifs <;> first | exact h | (simp; try omega))
    | (split <;> first | exact h | (split_ifs <;> first | exact h | (simp; try omega)))

/-- C9: in every state reached from the initial one by any sequence of API
calls, timer expiries and work-handler runs at arbitrary moments, if
`flashesRequested > 0` then `flashesCompleted ≤ flashesRequested`. -/
theorem completed_le_requested (ops : List Op)
    (hreq : 0 < (run ops).data.flashesRequested) :
    (run ops).data.flashesCompleted ≤ (run ops).data.flashesRequested :=
  run_induction
    (fun dev => 0 < dev.data.flashesRequested →
      dev.data.flashesCompleted ≤ dev.data.flashesRequested)
    (by decide) step_keeps_count_bound ops hreq

theorem completed_le_requested_witness :
    0 < (run [Op.flash 0 red ⟨100⟩ ⟨50⟩ 3, Op.expiry 0, Op.workHandler 0,
          Op.expiry 0]).data.flashesRequested
      ∧ (run [Op.flash 0 red ⟨100⟩ ⟨50⟩ 3, Op.expiry 0, Op.workHandler 0,
          Op.expiry 0]).data.flashesCompleted
        ≤ (run [Op.flash 0 red ⟨100⟩ ⟨50⟩ 3, Op.expiry 0, Op.workHandler 0,
          Op.expiry 0]).data.flashesRequested :=
  ⟨by decide, completed_le_requested _ (by decide)⟩

/-! ## Static colour (C10) -/

/-- C10: in every state, busy or idle, `setColor` appends exactly one transport
write, carrying the given colour (which is therefore the last colour written),
returns the transport status `ret` as it is, and leaves the data (stored
colour, durations, counts, `flashStateOn`, timer) unchanged;
`setColorFromPixels(r, g, b)` is `setColor` of the colour with those
channels. -/
theorem setColor_writes_only (ret : Int) (dev : Device) (pixels : led_rgb)
    (red green blue : rgbi_color_t) :
    (rgbi_spi_ws2812_setColor ret dev pixels).2 = ret
      ∧ (rgbi_spi_ws2812_setColor ret dev pixels).1.data = dev.data
      ∧ (rgbi_spi_ws2812_setColor ret dev pixels).1.trace = dev.trace ++ [Effect.write pixels]
      ∧ writes (rgbi_spi_ws2812_setColor ret dev pixels).1.trace = writes dev.trace ++ [pixels]
      ∧ (writes (rgbi_spi_ws2812_setColor ret dev pixels).1.trace).getLast? = some pixels
      ∧ rgbi_spi_ws2812_setColorFromPixels ret dev red green blue
          = rgbi_spi_ws2812_setColor ret dev ⟨red, green, blue⟩ := by
  have htrace : (rgbi_spi_ws2812_setColor ret dev pixels).1.trace
      = dev.trace ++ [Effect.write pixels] := rfl
  refine ⟨rfl, rfl, htrace, ?_, ?_, rfl⟩
  · rw [htrace, writes_append]; simp [writes]
  · rw [htrace, writes_append]; simp [writes]

/-! ## The transport status does not steer the sequencer -/

theorem flashWorkHandler_any_status (ret ret' : Int) (dev : Device) :
    rgbi_spi_ws2812_flashWorkHandler ret dev = rgbi_spi_ws2812_flashWorkHandler ret' dev := by
  simp [rgbi_spi_ws2812_flashWorkHandler, rgbi_spi_ws2812_setColorFromPixels,
    rgbi_spi_ws2812_setColor, led_strip_update_rgb]

theorem timerExpiry_any_status (ret ret' : Int) (dev : Device) :
    timerExpiry ret dev = timerExpiry ret' dev := by
  unfold timerExpiry
  split
  · rfl
  · exact flashWorkHandler_any_status ret ret' _

theorem expireDue_any_status (ret ret' : Int) (c : Clocked) :
    expireDue ret c = expireDue ret' c := by
  unfold expireDue
  rw [timerExpiry_any_status ret ret']

theorem expireDueRun_any_status (rets rets' : Nat → Int) (k : Nat) (c : Clocked) :
    expireDueRun rets k c = expireDueRun rets' k c := by
  induction k with
  | zero => rfl
  | succ k ih => rw [expireDueRun, expireDueRun, ih, expireDue_any_status (rets k) (rets' k)]

theorem flash_device_any_status (ret ret' : Int) (dev : Device) (pixels : led_rgb)
    (onD offD : k_timeout_t) (count : Fin 256) :
    (rgbi_spi_ws2812_flash ret dev pixels onD offD count).1
      = (rgbi_spi_ws2812_flash ret' dev pixels onD offD count).1 := by
  simp [rgbi_spi_ws2812_flash, rgbi_spi_ws2812_setColor, led_strip_update_rgb]

theorem cancel_device_any_status (ret ret' : Int) (dev : Device) :
    (rgbi_spi_ws2812_cancel ret dev).1 = (rgbi_spi_ws2812_cancel ret' dev).1 := by
  simp [rgbi_spi_ws2812_cancel, rgbi_spi_ws2812_off, IS_FLASHING, K_NO_WAIT,
    rgbi_spi_ws2812_setColorFromPixels, rgbi_spi_ws2812_setColor, led_strip_update_rgb]

theorem flashRedScenario_any_status (ret : Int) : flashRedScenario ret = flashRedScenario 0 := by
  unfold flashRedScenario callAt
  dsimp only
  rw [flash_device_any_status ret 0]

theorem flashBlueScenario_any_status (ret0 ret1 : Int) :
    flashBlueScenario ret0 ret1 = flashBlueScenario 0 0 := by
  unfold flashBlueScenario callAt rgbi_spi_ws2812_flashContinuous
  dsimp only
  rw [flash_device_any_status ret0 0, expireDue_any_status ret1 0]

theorem cancelBlueScenario_any_status (ret0 ret1 ret2 : Int) :
    cancelBlueScenario ret0 ret1 ret2 = cancelBlueScenario 0 0 0 := by
  unfold cancelBlueScenario callAt
  dsimp only
  rw [flashBlueScenario_any_status ret0 ret1, cancel_device_any_status ret2 0]

/-! ## Off on an idle indicator (C11) -/

/-- C11: on every idle device `off` appends exactly one transport write, of
black (all three channels 0), returns the status of that write (so 0 when the
write succeeds) and leaves the data, the timer included, unchanged. -/
theorem off_idle_writes_black (ret : Int) (dev : Device)
    (hidle : (rgbi_spi_ws2812_isBusy dev).2 = false) :
    (rgbi_spi_ws2812_off ret dev).2 = ret
      ∧ (rgbi_spi_ws2812_off 0 dev).2 = 0
      ∧ (rgbi_spi_ws2812_off ret dev).1.data = dev.data
      ∧ (rgbi_spi_ws2812_off ret dev).1.trace = dev.trace ++ [Effect.write ⟨0, 0, 0⟩]
      ∧ writes (rgbi_spi_ws2812_off ret dev).1.trace = writes dev.trace ++ [black] := by
  have h : IS_FLASHING dev = false := hidle
  have htrace : (rgbi_spi_ws2812_off ret dev).1.trace
      = dev.trace ++ [Effect.write ⟨0, 0, 0⟩] := by
    simp [rgbi_spi_ws2812_off, h, rgbi_spi_ws2812_setColorFromPixels, rgbi_spi_ws2812_setColor,
      led_strip_update_rgb]
  refine ⟨?_, ?_, ?_, htrace, ?_⟩
  · simp [rgbi_spi_ws2812_off, h, rgbi_spi_ws2812_setColorFromPixels, rgbi_spi_ws2812_setColor,
      led_strip_update_rgb]
  · simp [rgbi_spi_ws2812_off, h, rgbi_spi_ws2812_setColorFromPixels, rgbi_spi_ws2812_setColor,
      led_strip_update_rgb]
  · simp [rgbi_spi_ws2812_off, h, rgbi_spi_ws2812_setColorFromPixels, rgbi_spi_ws2812_setColor,
      led_strip_update_rgb]
  · rw [htrace, writes_append]; simp [writes, black]

theorem off_idle_writes_black_witness :
    (rgbi_spi_ws2812_isBusy cancelledDevice).2 = false
      ∧ (rgbi_spi_ws2812_off (-5) cancelledDevice).2 = -5
      ∧ (rgbi_spi_ws2812_off 0 cancelledDevice).2 = 0
      ∧ (rgbi_spi_ws2812_off (-5) cancelledDevice).1.data = cancelledDevice.data
      ∧ (rgbi_spi_ws2812_off (-5) cancelledDevice).1.trace
          = cancelledDevice.trace ++ [Effect.write ⟨0, 0, 0⟩]
      ∧ writes (rgbi_spi_ws2812_off (-5) cancelledDevice).1.trace
          = writes cancelledDevice.trace ++ [black] :=
  ⟨by decide, off_idle_writes_black (-5) cancelledDevice (by decide)⟩

/-! ## Status of a failed transport write (C12) -/

/-- C12, evaluated with the transport answering `-5` to the write: `flash` on
the idle initial device issues its write of red and returns 0, and `cancel` on
a busy device issues its forced-off write of black and returns 0; neither
returns `-5`.  On the same devices and with the same answer, `setColor`,
`setColorFromPixels` and `off` (on the idle device) do return `-5`. -/
theorem flash_and_cancel_drop_write_status :
    (rgbi_spi_ws2812_isBusy initialDevice).2 = false
      ∧ (rgbi_spi_ws2812_flash (-5) initialDevice red ⟨100⟩ ⟨50⟩ 3).2 = 0
      ∧ ¬ ((rgbi_spi_ws2812_flash (-5) initialDevice red ⟨100⟩ ⟨50⟩ 3).2 = -5)
      ∧ writes (rgbi_spi_ws2812_flash (-5) initialDevice red ⟨100⟩ ⟨50⟩ 3).1.trace = [red]
      ∧ (rgbi_spi_ws2812_cancel (-5) litDevice).2 = 0
      ∧ ¬ ((rgbi_spi_ws2812_cancel (-5) litDevice).2 = -5)
      ∧ writes (rgbi_spi_ws2812_cancel (-5) litDevice).1.trace = [red, black]
      ∧ (rgbi_spi_ws2812_setColor (-5) litDevice blue).2 = -5
      ∧ (rgbi_spi_ws2812_setColorFromPixels (-5) litDevice 1 2 3).2 = -5
      ∧ (rgbi_spi_ws2812_off (-5) initialDevice).2 = -5 := by
  decide

/-! ## Scenario: three red pulses (C13) -/

/-- C13 fails as stated: in the scenario `flash(red, 100, 50, 3)` the fifth
expiry issues the black write at time 400, and after it the stored
`flashesCompleted` is 0, not 3. -/
theorem three_pulses_completed_not_three :
    (expireDueRun (fun _ => 0) 5 (flashRedScenario 0)).stamped.getLast? = some (400, black)
      ∧ (expireDueRun (fun _ => 0) 5 (flashRedScenario 0)).dev.data.flashesCompleted = 0
      ∧ ¬ ((expireDueRun (fun _ => 0) 5 (flashRedScenario 0)).dev.data.flashesCompleted = 3) := by
  decide

/-- C13, amended: from the initial device, `flash(red, 100, 50, 3)` at time 0
and five handled expiries give exactly the writes red at 0, black at 100, red
at 150, black at 250, red at 300, black at 400, whatever the transport
answers; `flashesCompleted` is 1 after the black write at 100 and 2 after the
one at 250, and the handler run of the black write at 400 ends the sequence:
`flashesCompleted` and `flashesRequested` are reset to 0, `isBusy` is false, no
timer is armed and no further expiry is due. -/
theorem three_pulses_scenario (ret0 : Int) (rets : Nat → Int) :
    (expireDueRun rets 5 (flashRedScenario ret0)).stamped
        = [(0, red), (100, black), (150, red), (250, black), (300, red), (400, black)]
      ∧ (expireDueRun rets 1 (flashRedScenario ret0)).stamped = [(0, red), (100, black)]
      ∧ (expireDueRun rets 1 (flashRedScenario ret0)).dev.data.flashesCompleted = 1
      ∧ (expireDueRun rets 3 (flashRedScenario ret0)).stamped
          = [(0, red), (100, black), (150, red), (250, black)]
      ∧ (expireDueRun rets 3 (flashRedScenario ret0)).dev.data.flashesCompleted = 2
      ∧ (expireDueRun rets 5 (flashRedScenario ret0)).dev.data.flashesCompleted = 0
      ∧ (expireDueRun rets 5 (flashRedScenario ret0)).dev.data.flashesRequested = 0
      ∧ (rgbi_spi_ws2812_isBusy (expireDueRun rets 5 (flashRedScenario ret0)).dev).2 = false
      ∧ timerArmed (expireDueRun rets 5 (flashRedScenario ret0)).dev = false
      ∧ nextExpiry (expireDueRun rets 5 (flashRedScenario ret0)) = none
      ∧ expireDueRun rets 6 (flashRedScenario ret0)
          = expireDueRun rets 5 (flashRedScenario ret0) := by
  rw [flashRedScenario_any_status ret0, expireDueRun_any_status rets (fun _ => 0) 5,
    expireDueRun_any_status rets (fun _ => 0) 1, expireDueRun_any_status rets (fun _ => 0) 3,
    expireDueRun_any_status rets (fun _ => 0) 6]
  decide

/-! ## Idle devices and the work handler -/

theorem flashWorkHandler_idle (ret : Int) (dev : Device)
    (hidle : dev.data.onDuration.ticks = 0) :
    rgbi_spi_ws2812_flashWorkHandler ret dev = dev := by
  simp [rgbi_spi_ws2812_flashWorkHandler, hidle]

theorem expireDueRun_none (rets : Nat → Int) (c : Clocked) (hnone : nextExpiry c = none)
    (k : Nat) : expireDueRun rets k c = c := by
  induction k with
  | zero => rfl
  | succ k ih => rw [expireDueRun, ih]; simp [expireDue, hnone]

/-! ## Scenario: continuous blue, then cancel (C14) -/

/-- C14: from the initial device, `flashContinuous(blue, 200, 200)` at time 0
and the expiry due at 200 give the writes blue at 0 and black at 200, the next
expiry being due at 400; `cancel` at time 350 adds the write black at 350, so
the writes are exactly blue at 0, black at 200, black at 350, whatever the
transport answers.  After `cancel`, `isBusy` is false and the timer is
stopped, and it stays so: no expiry is due any more, and a work-handler run
changes nothing. -/
theorem continuous_then_cancel_scenario (ret0 ret1 ret2 : Int) :
    (flashBlueScenario ret0 ret1).stamped = [(0, blue), (200, black)]
      ∧ nextExpiry (flashBlueScenario ret0 ret1) = some 400
      ∧ (cancelBlueScenario ret0 ret1 ret2).stamped
          = [(0, blue), (200, black), (350, black)]
      ∧ (rgbi_spi_ws2812_isBusy (cancelBlueScenario ret0 ret1 ret2).dev).2 = false
      ∧ timerArmed (cancelBlueScenario ret0 ret1 ret2).dev = false
      ∧ nextExpiry (cancelBlueScenario ret0 ret1 ret2) = none
      ∧ (∀ (rets : Nat → Int) (k : Nat),
          expireDueRun rets k (cancelBlueScenario ret0 ret1 ret2)
            = cancelBlueScenario ret0 ret1 ret2)
      ∧ ∀ ret : Int,
          rgbi_spi_ws2812_flashWorkHandler ret (cancelBlueScenario ret0 ret1 ret2).dev
            = (cancelBlueScenario ret0 ret1 ret2).dev := by
  rw [flashBlueScenario_any_status ret0 ret1, cancelBlueScenario_any_status ret0 ret1 ret2]
  refine ⟨by decide, by decide, by decide, by decide, by decide, by decide, ?_, ?_⟩
  · intro rets k
    exact expireDueRun_none rets _ (by decide) k
  · intro ret
    exact flashWorkHandler_idle ret _ (by decide)

/-! ## Initialisation (C15) -/

/-- C15: whatever the instance held before and whether or not the transport is
ready, `init` leaves the colour black, both durations 0, both counts 0 and
`flashStateOn` false, so `isBusy` is false; it returns `-ENODEV` exactly when
the transport is not ready, and 0 otherwise. -/
theorem init_zeroes_and_reports (ready : Bool) (dev : Device) :
    (rgbi_spi_ws2812_init ready dev).1.data.pixels = black
      ∧ (rgbi_spi_ws2812_init ready dev).1.data.onDuration.ticks = 0
      ∧ (rgbi_spi_ws2812_init ready dev).1.data.offDuration.ticks = 0
      ∧ (rgbi_spi_ws2812_init ready dev).1.data.flashesRequested = 0
      ∧ (rgbi_spi_ws2812_init ready dev).1.data.flashesCompleted = 0
      ∧ (rgbi_spi_ws2812_init ready dev).1.data.flashStateOn = false
      ∧ (rgbi_spi_ws2812_isBusy (rgbi_spi_ws2812_init ready dev).1).2 = false
      ∧ ((rgbi_spi_ws2812_init ready dev).2 = -ENODEV ↔ ready = false)
      ∧ (rgbi_spi_ws2812_init ready dev).2 = (if ready = true then 0 else -ENODEV) := by
  cases ready <;>
    simp [rgbi_spi_ws2812_init, rgbi_spi_ws2812_isBusy, IS_FLASHING, black, ENODEV]

/-! ## The lit-pending transition (C16) -/

/-- C16: in every busy state with `flashStateOn = true`, one work-handler step
writes black and sets `flashStateOn = false`; with `flashesCompleted`
incremented by 1 (as the `unsigned int` it is), if `flashesRequested == 0` or
the incremented count is below `flashesRequested`, the incremented count is
stored, the timer is armed for `offDuration` and the device stays busy;
otherwise `flashesRequested`, `flashesCompleted` and `onDuration` are set to 0
(idle) and no timer is armed. -/
theorem lit_pending_step (ret : Int) (dev : Device)
    (hbusy : (rgbi_spi_ws2812_isBusy dev).2 = true) (hlit : dev.data.flashStateOn = true) :
    writes (rgbi_spi_ws2812_flashWorkHandler ret dev).trace = writes dev.trace ++ [black]
      ∧ (rgbi_spi_ws2812_flashWorkHandler ret dev).data.flashStateOn = false
      ∧ ((dev.data.flashesRequested = 0
            ∨ (dev.data.flashesCompleted + 1) % UINT_RANGE < dev.data.flashesRequested) →
          rgbi_spi_ws2812_flashWorkHandler ret dev
              = { data := { dev.data with
                    flashStateOn := false
                    flashesCompleted := (dev.data.flashesCompleted + 1) % UINT_RANGE
                    rgbiTimer := some dev.data.offDuration }
                  trace := dev.trace
                    ++ [Effect.write black, Effect.timerStart dev.data.offDuration] }
            ∧ (rgbi_spi_ws2812_isBusy (rgbi_spi_ws2812_flashWorkHandler ret dev)).2 = true)
      ∧ (¬ (dev.data.flashesRequested = 0
            ∨ (dev.data.flashesCompleted + 1) % UINT_RANGE < dev.data.flashesRequested) →
          rgbi_spi_ws2812_flashWorkHandler ret dev
              = { data := { dev.data with
                    flashStateOn := false
                    flashesRequested := 0
                    flashesCompleted := 0
                    onDuration := K_NO_WAIT }
                  trace := dev.trace ++ [Effect.write black] }
            ∧ (rgbi_spi_ws2812_isBusy (rgbi_spi_ws2812_flashWorkHandler ret dev)).2 = false
            ∧ (rgbi_spi_ws2812_flashWorkHandler ret dev).data.rgbiTimer
                = dev.data.rgbiTimer) := by
  have hon : 0 < dev.data.onDuration.ticks := by
    simpa [rgbi_spi_ws2812_isBusy, IS_FLASHING] using hbusy
  by_cases hc : dev.data.flashesRequested = 0
      ∨ (dev.data.flashesCompleted + 1) % UINT_RANGE < dev.data.flashesRequested
  · have hc' : (dev.data.flashesCompleted + 1) % UINT_RANGE < dev.data.flashesRequested
        ∨ dev.data.flashesRequested = 0 := hc.symm
    have e : rgbi_spi_ws2812_flashWorkHandler ret dev
        = { data := { dev.data with
              flashStateOn := false
              flashesCompleted := (dev.data.flashesCompleted + 1) % UINT_RANGE
              rgbiTimer := some dev.data.offDuration }
            trace := dev.trace
              ++ [Effect.write black, Effect.timerStart dev.data.offDuration] } := by
      simp [rgbi_spi_ws2812_flashWorkHandler, hon, hlit, hc', FLASH_CONTINUOUS,
        rgbi_spi_ws2812_setColorFromPixels, rgbi_spi_ws2812_setColor, led_strip_update_rgb,
        k_timer_start, black]
    rw [e]
    refine ⟨?_, rfl, fun _ => ⟨rfl, ?_⟩, fun h => absurd hc h⟩
    · simp [writes_append, writes]
    · simp [rgbi_spi_ws2812_isBusy, IS_FLASHING, hon]
  · have hc' : ¬ ((dev.data.flashesCompleted + 1) % UINT_RANGE < dev.data.flashesRequested
        ∨ dev.data.flashesRequested = 0) := fun h => hc h.symm
    have e : rgbi_spi_ws2812_flashWorkHandler ret dev
        = { data := { dev.data with
              flashStateOn := false
              flashesRequested := 0
              flashesCompleted := 0
              onDuration := K_NO_WAIT }
            trace := dev.trace ++ [Effect.write black] } := by
      simp only [rgbi_spi_ws2812_flashWorkHandler, FLASH_CONTINUOUS,
        rgbi_spi_ws2812_setColorFromPixels, rgbi_spi_ws2812_setColor, led_strip_update_rgb]
      rw [if_pos hon, if_pos hlit, if_neg hc']
      rfl
    rw [e]
    refine ⟨?_, rfl, fun h => absurd h hc, fun _ => ⟨rfl, ?_, rfl⟩⟩
    · simp [writes_append, writes]
    · simp [rgbi_spi_ws2812_isBusy, IS_FLASHING, K_NO_WAIT]

theorem lit_pending_step_witness :
    (rgbi_spi_ws2812_isBusy litDevice).2 = true
      ∧ litDevice.data.flashStateOn = true
      ∧ (rgbi_spi_ws2812_flashWorkHandler 0 litDevice).data.flashStateOn = false :=
  ⟨by decide, by decide, (lit_pending_step 0 litDevice (by decide) (by decide)).2.1⟩

/-! ## The dark-pending transition (C17) -/

/-- C17, evaluated on a dark-pending device of a continuous sequence (busy,
`flashStateOn = false`, `flashesRequested = 0`): the work-handler step sets
`flashStateOn = true` and leaves both counts as they were, but it writes
nothing and starts no timer, so after the handled expiry no timer is armed and
the writes are still only blue, black. -/
theorem dark_pending_continuous_not_relit :
    (rgbi_spi_ws2812_isBusy darkContinuousDevice).2 = true
      ∧ darkContinuousDevice.data.flashStateOn = false
      ∧ darkContinuousDevice.data.flashesRequested = FLASH_CONTINUOUS
      ∧ (rgbi_spi_ws2812_flashWorkHandler 0 darkContinuousDevice).data.flashStateOn = true
      ∧ (rgbi_spi_ws2812_flashWorkHandler 0 darkContinuousDevice).data.flashesCompleted
          = darkContinuousDevice.data.flashesCompleted
      ∧ (rgbi_spi_ws2812_flashWorkHandler 0 darkContinuousDevice).data.flashesRequested
          = darkContinuousDevice.data.flashesRequested
      ∧ (rgbi_spi_ws2812_flashWorkHandler 0 darkContinuousDevice).trace
          = darkContinuousDevice.trace
      ∧ timerArmed (timerExpiry 0 darkContinuousDevice) = false
      ∧ writes (timerExpiry 0 darkContinuousDevice).trace = [blue, black] := by
  decide

/-! ## Bookkeeping against transport failures (C18) -/

/-- C18: for every state, two work-handler runs that differ only in the status
returned by the transport write end in the same device: the same colour,
durations, counts, `flashStateOn` and timer state, and the same trace of
writes and timer starts. -/
theorem handler_ignores_write_status (ret ret' : Int) (dev : Device) :
    rgbi_spi_ws2812_flashWorkHandler ret dev = rgbi_spi_ws2812_flashWorkHandler ret' dev
      ∧ (rgbi_spi_ws2812_flashWorkHandler ret dev).data
          = (rgbi_spi_ws2812_flashWorkHandler ret' dev).data
      ∧ (rgbi_spi_ws2812_flashWorkHandler ret dev).trace
          = (rgbi_spi_ws2812_flashWorkHandler ret' dev).trace := by
  rw [flashWorkHandler_any_status ret ret' dev]
  exact ⟨rfl, rfl, rfl⟩

/-! ## The handler on an idle device (C19) -/

/-- C19: on every idle device (`onDuration == 0`), whatever its other fields
hold, a work-handler step returns the device as it was: no field changes, no
transport write is issued and no timer is armed. -/
theorem idle_handler_step_is_noop (ret : Int) (dev : Device)
    (hidle : dev.data.onDuration.ticks = 0) :
    rgbi_spi_ws2812_flashWorkHandler ret dev = dev :=
  flashWorkHandler_idle ret dev hidle

theorem idle_handler_step_is_noop_witness :
    cancelledDevice.data.onDuration.ticks = 0
      ∧ cancelledDevice.data.flashesRequested = 3
      ∧ cancelledDevice.data.flashStateOn = true
      ∧ rgbi_spi_ws2812_flashWorkHandler 0 cancelledDevice = cancelledDevice :=
  ⟨by decide, by decide, by decide, idle_handler_step_is_noop 0 cancelledDevice (by decide)⟩

/-! ## Flash with a zero on-duration (C20) -/

/-- C20: on every idle device `flash` returns 0 and leaves `isBusy` true
exactly when the given `onDuration` is above 0 ticks.  With `onDuration` 0 it
still writes the colour, stores `flashesRequested = count` and
`flashStateOn = true` and starts the timer, but `isBusy` is false; the expiry
that follows only consumes the timer (no field changes, nothing is written),
and however many expiries are waited for the writes stay the one colour write:
no black write follows. -/
theorem flash_busy_iff_positive_onDuration (ret : Int) (dev : Device)
    (hidle : (rgbi_spi_ws2812_isBusy dev).2 = false)
    (pixels : led_rgb) (onD offD : k_timeout_t) (count : Fin 256) :
    (rgbi_spi_ws2812_flash ret dev pixels onD offD count).2 = 0
      ∧ ((rgbi_spi_ws2812_isBusy (rgbi_spi_ws2812_flash ret dev pixels onD offD count).1).2
            = true ↔ 0 < onD.ticks)
      ∧ (rgbi_spi_ws2812_flash ret dev pixels K_NO_WAIT offD count).1
          = { data :=
                { pixels := pixels
                  onDuration := K_NO_WAIT
                  offDuration := offD
                  flashesRequested := count.val
                  flashesCompleted := 0
                  flashStateOn := true
                  rgbiTimer := some K_NO_WAIT }
              trace := dev.trace ++ [Effect.write pixels, Effect.timerStart K_NO_WAIT] }
      ∧ (rgbi_spi_ws2812_isBusy
            (rgbi_spi_ws2812_flash ret dev pixels K_NO_WAIT offD count).1).2 = false
      ∧ (∀ ret' : Int,
          timerExpiry ret' (rgbi_spi_ws2812_flash ret dev pixels K_NO_WAIT offD count).1
            = { data :=
                  { pixels := pixels
                    onDuration := K_NO_WAIT
                    offDuration := offD
                    flashesRequested := count.val
                    flashesCompleted := 0
                    flashStateOn := true
                    rgbiTimer := none }
                trace := dev.trace ++ [Effect.write pixels, Effect.timerStart K_NO_WAIT] })
      ∧ ∀ (rets : Nat → Int) (k : Nat),
          writes (runExpiries rets k
              (rgbi_spi_ws2812_flash ret dev pixels K_NO_WAIT offD count).1).trace
            = writes dev.trace ++ [pixels] := by
  have h : IS_FLASHING dev = false := hidle
  have e : ∀ d : k_timeout_t, (rgbi_spi_ws2812_flash ret dev pixels d offD count).1
      = { data :=
            { pixels := pixels
              onDuration := d
              offDuration := offD
              flashesRequested := count.val
              flashesCompleted := 0
              flashStateOn := true
              rgbiTimer := some d }
          trace := dev.trace ++ [Effect.write pixels, Effect.timerStart d] } := by
    intro d
    simp [rgbi_spi_ws2812_flash, h, rgbi_spi_ws2812_setColor, led_strip_update_rgb,
      k_timer_start]
  have hexp : ∀ ret' : Int,
      timerExpiry ret' (rgbi_spi_ws2812_flash ret dev pixels K_NO_WAIT offD count).1
        = { data :=
              { pixels := pixels
                onDuration := K_NO_WAIT
                offDuration := offD
                flashesRequested := count.val
                flashesCompleted := 0
                flashStateOn := true
                rgbiTimer := none }
            trace := dev.trace ++ [Effect.write pixels, Effect.timerStart K_NO_WAIT] } := by
    intro ret'
    rw [e K_NO_WAIT]
    simp [timerExpiry, rgbi_spi_ws2812_flashWorkHandler, K_NO_WAIT]
  refine ⟨?_, ?_, e K_NO_WAIT, ?_, hexp, ?_⟩
  · simp [rgbi_spi_ws2812_flash, h]
  · rw [e onD]; simp [rgbi_spi_ws2812_isBusy, IS_FLASHING]
  · rw [e K_NO_WAIT]; simp [rgbi_spi_ws2812_isBusy, IS_FLASHING, K_NO_WAIT]
  · intro rets k
    cases k with
    | zero =>
      rw [runExpiries, e K_NO_WAIT]
      simp [writes_append, writes]
    | succ j =>
      have h1 : runExpiries rets 1 (rgbi_spi_ws2812_flash ret dev pixels K_NO_WAIT offD count).1
          = timerExpiry (rets 0)
              (rgbi_spi_ws2812_flash ret dev pixels K_NO_WAIT offD count).1 := rfl
      rw [Nat.add_comm j 1, runExpiries_add rets _ 1 j (by rw [h1, hexp]), h1, hexp]
      simp [writes_append, writes]

theorem flash_busy_iff_positive_onDuration_witness :
    (rgbi_spi_ws2812_isBusy cancelledDevice).2 = false
      ∧ (rgbi_spi_ws2812_flash 0 cancelledDevice blue K_NO_WAIT ⟨50⟩ 3).2 = 0
      ∧ (rgbi_spi_ws2812_isBusy
            (rgbi_spi_ws2812_flash 0 cancelledDevice blue K_NO_WAIT ⟨50⟩ 3).1).2 = false :=
  ⟨by decide,
    (flash_busy_iff_positive_onDuration 0 cancelledDevice (by decide) blue K_NO_WAIT ⟨50⟩ 3).1,
    (flash_busy_iff_positive_onDuration 0 cancelledDevice (by decide) blue K_NO_WAIT ⟨50⟩
      3).2.2.2.1⟩

/-! ## A new sequence forgets the old one (C21) -/

/-- C21: for any two idle devices, whatever colour, off-duration, counts,
`flashStateOn` and timer state an earlier sequence left in them, and for the
same arguments, `flash` returns the same status (0), appends the same effects
(one write of `pixels`, then the timer start for `onDuration`) and ends with
identical data: stored colour, `onDuration`, `offDuration`,
`flashesRequested`, `flashesCompleted`, `flashStateOn` and the timer all
agree.  The status the transport gives to either write plays no part. -/
theorem flash_forgets_leftovers (ret ret' : Int) (dev dev' : Device)
    (hidle : (rgbi_spi_ws2812_isBusy dev).2 = false)
    (hidle' : (rgbi_spi_ws2812_isBusy dev').2 = false)
    (pixels : led_rgb) (onD offD : k_timeout_t) (count : Fin 256) :
    (rgbi_spi_ws2812_flash ret dev pixels onD offD count).2
        = (rgbi_spi_ws2812_flash ret' dev' pixels onD offD count).2
      ∧ (rgbi_spi_ws2812_flash ret dev pixels onD offD count).1.data
          = (rgbi_spi_ws2812_flash ret' dev' pixels onD offD count).1.data
      ∧ (rgbi_spi_ws2812_flash ret dev pixels onD offD count).1.trace
          = dev.trace ++ [Effect.write pixels, Effect.timerStart onD]
      ∧ (rgbi_spi_ws2812_flash ret' dev' pixels onD offD count).1.trace
          = dev'.trace ++ [Effect.write pixels, Effect.timerStart onD]
      ∧ (rgbi_spi_ws2812_flash ret dev pixels onD offD count).1.data
          = { pixels := pixels
              onDuration := onD
              offDuration := offD
              flashesRequested := count.val
              flashesCompleted := 0
              flashStateOn := true
              rgbiTimer := some onD } := by
  have h : IS_FLASHING dev = false := hidle
  have h' : IS_FLASHING dev' = false := hidle'
  simp [rgbi_spi_ws2812_flash, h, h', rgbi_spi_ws2812_setColor, led_strip_update_rgb,
    k_timer_start]

theorem flash_forgets_leftovers_witness :
    (rgbi_spi_ws2812_isBusy initialDevice).2 = false
      ∧ (rgbi_spi_ws2812_isBusy cancelledDevice).2 = false
      ∧ ¬ (initialDevice.data = cancelledDevice.data)
      ∧ (rgbi_spi_ws2812_flash 0 initialDevice blue ⟨7⟩ ⟨9⟩ 2).2
          = (rgbi_spi_ws2812_flash (-5) cancelledDevice blue ⟨7⟩ ⟨9⟩ 2).2
      ∧ (rgbi_spi_ws2812_flash 0 initialDevice blue ⟨7⟩ ⟨9⟩ 2).1.data
          = (rgbi_spi_ws2812_flash (-5) cancelledDevice blue ⟨7⟩ ⟨9⟩ 2).1.data :=
  ⟨by decide, by decide, by decide,
    (flash_forgets_leftovers 0 (-5) initialDevice cancelledDevice (by decide) (by decide)
      blue ⟨7⟩ ⟨9⟩ 2).1,
    (flash_forgets_leftovers 0 (-5) initialDevice cancelledDevice (by decide) (by decide)
      blue ⟨7⟩ ⟨9⟩ 2).2.1⟩

end Rgbi
